import Mathlib

/-!
Verification development for the Breakout-style game in M8/Source/MainCode.cpp.

The game state is embedded shallowly: C++ floats become exact rationals,
the three entity classes become structures, and each collision routine
becomes a pure function from the old state to the new state.  The per-frame
loop in main is modelled as index-based iteration over the projectile list,
visiting exactly the indices that exist when the frame starts (the appended
merged projectiles are therefore first visited on the following frame, as
with the vector's end iterator cached at loop entry).
-/

set_option allowUnsafeReducibility true in
attribute [semireducible] Rat.add Rat.mul Rat.inv Rat.sub Rat.ofScientific

namespace Breakout

inductive BRICKTYPE where
  | REFLECTIVE
  | DESTRUCTABLE
deriving DecidableEq, Repr

inductive ONOFF where
  | ON
  | OFF
deriving DecidableEq, Repr

/-- Paddle class: position, half-extent container and color (lines 20-54). -/
structure Paddle where
  x : ℚ
  y : ℚ
  width : ℚ
  height : ℚ
  red : ℚ
  green : ℚ
  blue : ℚ
deriving DecidableEq, Repr

/-- Brick class fields (lines 57-76). -/
structure Brick where
  red : ℚ
  green : ℚ
  blue : ℚ
  x : ℚ
  y : ℚ
  width : ℚ
  height : ℚ
  brick_type : BRICKTYPE
  onoff : ONOFF
  hitPoints : ℤ
deriving DecidableEq, Repr

/-- Circle class fields (lines 110-130). -/
structure Circle where
  red : ℚ
  green : ℚ
  blue : ℚ
  radius : ℚ
  x : ℚ
  y : ℚ
  speedX : ℚ
  speedY : ℚ
  active : Bool
deriving DecidableEq, Repr

/-- Paddle::move (lines 48-53): shift x by dx, then the two clamp ifs run in
sequence, the second one seeing the result of the first. -/
def Paddle.move (p : Paddle) (dx : ℚ) : Paddle :=
  let p1 : Paddle := { p with x := p.x + dx }
  let p2 : Paddle := if p1.x - p1.width / 2 < -1 then { p1 with x := -1 + p1.width / 2 } else p1
  if p2.x + p2.width / 2 > 1 then { p2 with x := 1 - p2.width / 2 } else p2

/-- Brick::updateColor (lines 93-106): destructible bricks are recolored at
2 and 1 remaining hit points, every other count leaves the color alone. -/
def updateColor (b : Brick) : Brick :=
  if b.brick_type = BRICKTYPE.DESTRUCTABLE then
    if b.hitPoints = 2 then { b with red := 1, green := 0.5, blue := 0 }
    else if b.hitPoints = 1 then { b with red := 1, green := 0, blue := 0 }
    else b
  else b

/-- The brick mutation performed by the DESTRUCTABLE branch of
Circle::CheckCollision(Brick*) (lines 148-152): decrement hitPoints, call
updateColor, and switch the brick OFF when the new count is at most 0. -/
def applyHit (b : Brick) : Brick :=
  let b1 : Brick := { b with hitPoints := b.hitPoints - 1 }
  let b2 : Brick := updateColor b1
  if b2.hitPoints ≤ 0 then { b2 with onoff := ONOFF.OFF } else b2

/-- The AABB test of Circle::CheckCollision(Brick*) (lines 136-139). -/
def brickOverlap (c : Circle) (b : Brick) : Prop :=
  c.x + c.radius > b.x - b.width / 2 ∧
  c.x - c.radius < b.x + b.width / 2 ∧
  c.y + c.radius > b.y - b.height / 2 ∧
  c.y - c.radius < b.y + b.height / 2

instance (c : Circle) (b : Brick) : Decidable (brickOverlap c b) := by
  unfold brickOverlap
  infer_instance

/-- Circle::CheckCollision(Brick*) (lines 133-158): only an ON brick is
tested; a reflective brick just flips speedY, a destructible brick takes a
hit and also flips speedY. -/
def checkBrickCollision (c : Circle) (b : Brick) : Circle × Brick :=
  if b.onoff = ONOFF.ON then
    if brickOverlap c b then
      match b.brick_type with
      | BRICKTYPE.REFLECTIVE => ({ c with speedY := -c.speedY }, b)
      | BRICKTYPE.DESTRUCTABLE => ({ c with speedY := -c.speedY }, applyHit b)
    else (c, b)
  else (c, b)

/-- The AABB test of Circle::CheckCollision(Paddle*) (lines 162-165). -/
def paddleOverlap (c : Circle) (p : Paddle) : Prop :=
  c.x + c.radius > p.x - p.width / 2 ∧
  c.x - c.radius < p.x + p.width / 2 ∧
  c.y - c.radius < p.y + p.height / 2 ∧
  c.y + c.radius > p.y - p.height / 2

instance (c : Circle) (p : Paddle) : Decidable (paddleOverlap c p) := by
  unfold paddleOverlap
  infer_instance

/-- Circle::CheckCollision(Paddle*) (lines 161-174): on overlap, speedY is
replaced by its absolute value, speedX is recomputed from the impact offset
scaled by 0.02, and the circle is repositioned just above the paddle top. -/
def checkPaddleCollision (c : Circle) (p : Paddle) : Circle :=
  if paddleOverlap c p then
    { c with
      speedY := |c.speedY|,
      speedX := (c.x - p.x) / (p.width / 2) * 0.02,
      y := p.y + p.height / 2 + c.radius }
  else c

/-- The left-wall if of Circle::CheckWallCollision (lines 179-182). -/
def wallLeft (c : Circle) : Circle :=
  if c.x - c.radius < -1 then { c with x := -1 + c.radius, speedX := -c.speedX } else c

/-- The right-wall if of Circle::CheckWallCollision (lines 183-186). -/
def wallRight (c : Circle) : Circle :=
  if c.x + c.radius > 1 then { c with x := 1 - c.radius, speedX := -c.speedX } else c

/-- The top-wall if of Circle::CheckWallCollision (lines 188-191). -/
def wallTop (c : Circle) : Circle :=
  if c.y + c.radius > 1 then { c with y := 1 - c.radius, speedY := -c.speedY } else c

/-- The bottom-wall if of Circle::CheckWallCollision (lines 193-195): the
circle is only deactivated, nothing else is touched. -/
def wallBottom (c : Circle) : Circle :=
  if c.y - c.radius < -1 then { c with active := false } else c

/-- Circle::CheckWallCollision (lines 177-196): the four ifs run in
sequence, each seeing the state left by the previous one. -/
def checkWallCollision (c : Circle) : Circle :=
  wallBottom (wallTop (wallRight (wallLeft c)))

/-- The distance test of Circle::CheckCollision(std::vector) (lines
202-205).  The source compares sqrt(dx*dx + dy*dy) < radius + other.radius
over floats; over the rationals this holds exactly when the radius sum is
positive and the squared distance is below its square, since sqrt is
monotone and nonnegative. -/
def circlesOverlap (a b : Circle) : Prop :=
  0 < a.radius + b.radius ∧
  (a.x - b.x) * (a.x - b.x) + (a.y - b.y) * (a.y - b.y)
    < (a.radius + b.radius) * (a.radius + b.radius)

instance (a b : Circle) : Decidable (circlesOverlap a b) := by
  unfold circlesOverlap
  infer_instance

/-- The merged circle constructed on lines 210-212: midpoint position,
summed radius, averaged velocity, fixed color (1, 1, 0), active. -/
def mergedCircle (a b : Circle) : Circle :=
  { red := 1, green := 1, blue := 0,
    radius := a.radius + b.radius,
    x := (a.x + b.x) / 2, y := (a.y + b.y) / 2,
    speedX := (a.speedX + b.speedX) / 2, speedY := (a.speedY + b.speedY) / 2,
    active := true }

/-- The scan of the inner loop of Circle::CheckCollision(std::vector)
(lines 200-205): starting at index s, find the first index j with j distinct
from the calling circle's index i, an active entry, and an overlap.  The
guard on the other circle's active flag is the only activity check the
source performs; the calling circle's own flag is never consulted. -/
def findMergeTarget (c : Circle) (i : ℕ) : ℕ → List Circle → Option ℕ
  | _, [] => none
  | j, other :: rest =>
      if j ≠ i ∧ other.active = true ∧ circlesOverlap c other then some j
      else findMergeTarget c i (j + 1) rest

/-- Circle::CheckCollision(std::vector) (lines 199-218) for the circle
stored at index i: on the first hit both entries are deactivated, the merged
circle is appended, and the loop breaks. -/
def checkCircleMerge (i : ℕ) (world : List Circle) : List Circle :=
  match world.get? i with
  | none => world
  | some c =>
      match findMergeTarget c i 0 world with
      | none => world
      | some j =>
          match world.get? j with
          | none => world
          | some other =>
              ((world.set i { c with active := false }).set j
                { other with active := false }) ++ [mergedCircle c other]

/-- Circle::MoveOneStep (lines 221-224). -/
def moveOneStep (c : Circle) : Circle :=
  { c with x := c.x + c.speedX, y := c.y + c.speedY }

/-- The brick loop of main (lines 301-303): CheckCollision against every
brick in order, threading the circle and the mutated bricks. -/
def bricksPass (c : Circle) : List Brick → Circle × List Brick
  | [] => (c, [])
  | b :: rest =>
      let cb := checkBrickCollision c b
      let rec2 := bricksPass cb.1 rest
      (rec2.1, cb.2 :: rec2.2)

/-- The body of main's per-circle update (lines 295-307) for the circle at
index k: the active test guards the whole pipeline once, then move, wall,
paddle, brick and merge checks run unconditionally in that order. -/
def stepCircleAt (p : Paddle) (st : List Circle × List Brick) (k : ℕ) :
    List Circle × List Brick :=
  match st.1.get? k with
  | none => st
  | some c =>
      if c.active = true then
        let c1 := moveOneStep c
        let c2 := checkWallCollision c1
        let c3 := checkPaddleCollision c2 p
        let cb := bricksPass c3 st.2
        let w1 := st.1.set k cb.1
        (checkCircleMerge k w1, cb.2)
      else st

/-- One frame's movement-and-collision loop (lines 295-307), visiting the
indices present when the frame starts. -/
def simStepRaw (p : Paddle) (st : List Circle × List Brick) :
    List Circle × List Brick :=
  (List.range st.1.length).foldl (stepCircleAt p) st

/-- One full frame of simulation (lines 295-311): the per-circle loop
followed by the erase-remove compaction, which keeps exactly the entries
whose active flag is still set. -/
def simStep (p : Paddle) (st : List Circle × List Brick) :
    List Circle × List Brick :=
  let st1 := simStepRaw p st
  (st1.1.filter (fun c => c.active), st1.2)

/-- The paddle constructed at line 242. -/
def paddle0 : Paddle :=
  { x := 0, y := -0.9, width := 0.4, height := 0.05, red := 0.5, green := 0.5, blue := 1 }

/-- Concrete projectile A of the three-circle merge scenario. -/
def cexA : Circle :=
  { red := 0.5, green := 0, blue := 0, radius := 0.05, x := 0, y := 0,
    speedX := 0, speedY := 0, active := true }

/-- Concrete projectile C of the three-circle merge scenario: it overlaps A
and precedes B in the collection. -/
def cexC : Circle :=
  { red := 0, green := 0.5, blue := 0, radius := 0.01, x := 0.059, y := 0,
    speedX := 0, speedY := 0, active := true }

/-- Concrete projectile B of the three-circle merge scenario: it overlaps A
but is scanned after C. -/
def cexB : Circle :=
  { red := 0, green := 0, blue := 0.5, radius := 0.01, x := -0.059, y := 0,
    speedX := 0, speedY := 0, active := true }

/-- A projectile about to fall below the bottom wall while overlapping
another active projectile. -/
def cLost : Circle :=
  { red := 0, green := 0, blue := 1, radius := 0.03, x := 0.5, y := -1,
    speedX := 0, speedY := -0.05, active := true }

/-- The still-active projectile sitting below the bottom wall next to the
spot where cLost ends its movement step. -/
def cOther : Circle :=
  { red := 0, green := 1, blue := 0, radius := 0.03, x := 0.5, y := -1.07,
    speedX := 0, speedY := 0, active := true }

/-- A projectile resting on the paddle with zero vertical velocity. -/
def cPZero : Circle :=
  { red := 0.5, green := 0.5, blue := 0.5, radius := 0.03, x := 0, y := -0.9,
    speedX := 0, speedY := 0, active := true }

/-- A projectile falling onto the paddle. -/
def cPFall : Circle :=
  { red := 0.5, green := 0.5, blue := 0.5, radius := 0.03, x := 0.05, y := -0.9,
    speedX := 0.01, speedY := -0.02, active := true }

/-- A reflective brick from the grid (type of odd i + j cells, lines
273-278). -/
def bRefl : Brick :=
  { red := 0.5, green := 0.5, blue := 0, x := 0, y := 0.5, width := 0.2,
    height := 0.1, brick_type := BRICKTYPE.REFLECTIVE, onoff := ONOFF.ON,
    hitPoints := 3 }

/-- A destructible brick from the grid with the initial 3 hit points. -/
def bDest : Brick :=
  { red := 0, green := 1, blue := 0, x := 0, y := 0.5, width := 0.2,
    height := 0.1, brick_type := BRICKTYPE.DESTRUCTABLE, onoff := ONOFF.ON,
    hitPoints := 3 }

/-- A projectile overlapping the brick at (0, 0.5). -/
def cBrick : Circle :=
  { red := 1, green := 0, blue := 0, radius := 0.03, x := 0, y := 0.5,
    speedX := 0, speedY := 0.02, active := true }

/-- A projectile far below the bottom wall. -/
def cDeep : Circle :=
  { red := 1, green := 1, blue := 1, radius := 0.03, x := 0, y := -2,
    speedX := 0, speedY := -0.05, active := true }

theorem wallLeft_radius (c : Circle) : (wallLeft c).radius = c.radius := by
  unfold wallLeft
  split <;> rfl

theorem wallRight_radius (c : Circle) : (wallRight c).radius = c.radius := by
  unfold wallRight
  split <;> rfl

theorem wallTop_radius (c : Circle) : (wallTop c).radius = c.radius := by
  unfold wallTop
  split <;> rfl

theorem move_width (p : Paddle) (dx : ℚ) : (Paddle.move p dx).width = p.width := by
  unfold Paddle.move
  dsimp only
  split_ifs <;> rfl

theorem move_y (p : Paddle) (dx : ℚ) : (Paddle.move p dx).y = p.y := by
  unfold Paddle.move
  dsimp only
  split_ifs <;> rfl

theorem move_x_bounds (p : Paddle) (dx : ℚ) (h : p.width ≤ 2) :
    -1 + p.width / 2 ≤ (Paddle.move p dx).x ∧ (Paddle.move p dx).x ≤ 1 - p.width / 2 := by
  unfold Paddle.move
  dsimp only
  split_ifs with h1 h2 h3 <;> dsimp only at * <;> constructor <;> linarith

theorem foldl_move_width (dxs : List ℚ) (p : Paddle) :
    (List.foldl Paddle.move p dxs).width = p.width := by
  induction dxs generalizing p with
  | nil => rfl
  | cons d t ih => rw [List.foldl_cons, ih, move_width]

theorem foldl_move_y (dxs : List ℚ) (p : Paddle) :
    (List.foldl Paddle.move p dxs).y = p.y := by
  induction dxs generalizing p with
  | nil => rfl
  | cons d t ih => rw [List.foldl_cons, ih, move_y]

/-- Claim C6: any sequence of Paddle::move calls, with arbitrary deltas,
keeps the horizontal center inside the clamp interval as long as the paddle
is not wider than the screen, and never changes the vertical position.  The
list dxs is the prefix of calls already performed and dx the call just
made, so the bound holds after every call of any sequence. -/
theorem paddle_clamp_sequence (p : Paddle) (dxs : List ℚ) (dx : ℚ) (h : p.width ≤ 2) :
    (-1 + p.width / 2 ≤ (List.foldl Paddle.move p (dxs ++ [dx])).x ∧
      (List.foldl Paddle.move p (dxs ++ [dx])).x ≤ 1 - p.width / 2) ∧
    (List.foldl Paddle.move p (dxs ++ [dx])).y = p.y := by
  constructor
  · rw [List.foldl_append, List.foldl_cons, List.foldl_nil]
    have hw := foldl_move_width dxs p
    have hb := move_x_bounds (List.foldl Paddle.move p dxs) dx (by rw [hw]; exact h)
    rw [hw] at hb
    exact hb
  · rw [foldl_move_y]

/-- Witness for C6 at the program's paddle and a concrete call sequence. -/
theorem paddle_clamp_sequence_witness :
    (-1 + paddle0.width / 2 ≤ (List.foldl Paddle.move paddle0 ([5, -7] ++ [100])).x ∧
      (List.foldl Paddle.move paddle0 ([5, -7] ++ [100])).x ≤ 1 - paddle0.width / 2) ∧
    (List.foldl Paddle.move paddle0 ([5, -7] ++ [100])).y = paddle0.y :=
  paddle_clamp_sequence paddle0 [5, -7] 100 (by decide)

/-- Claim C5: if the projectile's center ends the wall check below
-1 - radius then the projectile has been deactivated, and the bottom-wall
branch touches nothing but the active flag (no reflection, no clamping). -/
theorem wall_bottom_only_deactivates (c : Circle) (h : 0 ≤ c.radius) :
    ((checkWallCollision c).y < -1 - c.radius → (checkWallCollision c).active = false) ∧
    (wallBottom c).x = c.x ∧ (wallBottom c).y = c.y ∧
    (wallBottom c).speedX = c.speedX ∧ (wallBottom c).speedY = c.speedY := by
  have hr : (wallTop (wallRight (wallLeft c))).radius = c.radius := by
    rw [wallTop_radius, wallRight_radius, wallLeft_radius]
  refine ⟨?_, by unfold wallBottom; split <;> rfl, by unfold wallBottom; split <;> rfl,
    by unfold wallBottom; split <;> rfl, by unfold wallBottom; split <;> rfl⟩
  intro hy
  unfold checkWallCollision wallBottom at hy ⊢
  by_cases hb :
      (wallTop (wallRight (wallLeft c))).y - (wallTop (wallRight (wallLeft c))).radius < -1
  · rw [if_pos hb]
  · rw [if_neg hb] at hy
    rw [hr] at hb
    exfalso
    linarith

/-- Witness for C5 at a projectile far below the bottom wall. -/
theorem wall_bottom_only_deactivates_witness :
    ((checkWallCollision cDeep).y < -1 - cDeep.radius → (checkWallCollision cDeep).active = false) ∧
    (wallBottom cDeep).x = cDeep.x ∧ (wallBottom cDeep).y = cDeep.y ∧
    (wallBottom cDeep).speedX = cDeep.speedX ∧ (wallBottom cDeep).speedY = cDeep.speedY :=
  wall_bottom_only_deactivates cDeep (by decide)

/-- Claim C7: after the erase-remove compaction the live collection holds
exactly the projectiles whose active flag survived the frame: nothing
inactive remains and nothing active is dropped. -/
theorem compaction_keeps_exactly_active (p : Paddle) (w : List Circle) (bs : List Brick)
    (c : Circle) :
    c ∈ (simStep p (w, bs)).1 ↔ c ∈ (simStepRaw p (w, bs)).1 ∧ c.active = true := by
  simp [simStep, List.mem_filter]

/-- Claim C8: a collision with an active reflective brick returns the brick
completely unchanged and changes the projectile only by negating its
vertical velocity. -/
theorem reflective_brick_unchanged (c : Circle) (b : Brick)
    (hon : b.onoff = ONOFF.ON) (ht : b.brick_type = BRICKTYPE.REFLECTIVE)
    (hov : brickOverlap c b) :
    checkBrickCollision c b = ({ c with speedY := -c.speedY }, b) := by
  unfold checkBrickCollision
  rw [if_pos hon, if_pos hov, ht]

/-- Witness for C8 at a concrete projectile overlapping a reflective
brick. -/
theorem reflective_brick_unchanged_witness :
    checkBrickCollision cBrick bRefl = ({ cBrick with speedY := -cBrick.speedY }, bRefl) :=
  reflective_brick_unchanged cBrick bRefl rfl rfl (by decide)

/-- Counterexample to claim C2 as stated: a projectile with zero vertical
velocity overlaps the paddle, and after the paddle check its vertical
velocity is 0, not strictly positive. -/
theorem paddle_zero_velocity_counterexample :
    paddleOverlap cPZero paddle0 ∧ (checkPaddleCollision cPZero paddle0).speedY = 0 ∧
    ¬ 0 < (checkPaddleCollision cPZero paddle0).speedY := by decide

/-- Claim C2 as amended: after a paddle overlap the vertical velocity is
the absolute value of the prior one (magnitude preserved, nonnegative), and
it is strictly positive whenever the prior vertical velocity was nonzero. -/
theorem paddle_overlap_upward (c : Circle) (p : Paddle) (h : paddleOverlap c p) :
    (checkPaddleCollision c p).speedY = |c.speedY| ∧
    (c.speedY ≠ 0 → 0 < (checkPaddleCollision c p).speedY) := by
  unfold checkPaddleCollision
  rw [if_pos h]
  exact ⟨rfl, fun hne => abs_pos.mpr hne⟩

/-- Witness for the amended C2 at a projectile falling onto the paddle. -/
theorem paddle_overlap_upward_witness :
    (checkPaddleCollision cPFall paddle0).speedY = |cPFall.speedY| ∧
    (cPFall.speedY ≠ 0 → 0 < (checkPaddleCollision cPFall paddle0).speedY) :=
  paddle_overlap_upward cPFall paddle0 (by decide)

/-- Claim C10: the paddle check is idempotent.  On overlap the projectile
is repositioned to y = paddle.y + height/2 + radius, which falsifies the
strict overlap test, so an immediate second application is a no-op; without
overlap the projectile is untouched and the second application tests the
same falsified condition. -/
theorem paddle_check_idempotent (c : Circle) (p : Paddle) :
    checkPaddleCollision (checkPaddleCollision c p) p = checkPaddleCollision c p := by
  by_cases h : paddleOverlap c p
  · have h2 : ¬ paddleOverlap (checkPaddleCollision c p) p := by
      unfold checkPaddleCollision
      rw [if_pos h]
      intro hcontr
      rcases hcontr with ⟨hc1, hc2, hc3, hc4⟩
      dsimp only at hc3
      linarith
    conv_lhs => rw [checkPaddleCollision]
    rw [if_neg h2]
  · have h2 : checkPaddleCollision c p = c := by
      unfold checkPaddleCollision
      rw [if_neg h]
    rw [h2]
    exact h2

theorem updateColor_hitPoints (b : Brick) : (updateColor b).hitPoints = b.hitPoints := by
  unfold updateColor
  split_ifs <;> rfl

theorem updateColor_onoff (b : Brick) : (updateColor b).onoff = b.onoff := by
  unfold updateColor
  split_ifs <;> rfl

theorem updateColor_brick_type (b : Brick) : (updateColor b).brick_type = b.brick_type := by
  unfold updateColor
  split_ifs <;> rfl

theorem applyHit_hitPoints (b : Brick) : (applyHit b).hitPoints = b.hitPoints - 1 := by
  unfold applyHit
  dsimp only
  split_ifs <;> simp [updateColor_hitPoints]

theorem applyHit_onoff (b : Brick) :
    (applyHit b).onoff = if b.hitPoints - 1 ≤ 0 then ONOFF.OFF else b.onoff := by
  unfold applyHit
  dsimp only
  rw [updateColor_hitPoints]
  dsimp only
  split_ifs <;> simp [updateColor_onoff]

theorem applyHit_colors (b : Brick) (ht : b.brick_type = BRICKTYPE.DESTRUCTABLE) :
    ((applyHit b).red, (applyHit b).green, (applyHit b).blue) =
      (if b.hitPoints - 1 = 2 then ((1 : ℚ), (0.5 : ℚ), (0 : ℚ))
        else if b.hitPoints - 1 = 1 then (1, 0, 0)
        else (b.red, b.green, b.blue)) := by
  unfold applyHit updateColor
  dsimp only
  rw [ht]
  simp only [if_true, eq_self_iff_true]
  split_ifs <;> simp

theorem applyHit_iter_destructible (b : Brick) (N : ℕ) (hN : b.hitPoints = (N : ℤ))
    (hon : b.onoff = ONOFF.ON) (h1 : 1 ≤ N) :
    ∀ k : ℕ, k ≤ N →
      (applyHit^[k] b).hitPoints = (N : ℤ) - (k : ℤ) ∧
      ((applyHit^[k] b).onoff = ONOFF.ON ↔ k < N) := by
  intro k
  induction k with
  | zero =>
      intro _
      refine ⟨by simpa using hN, ?_⟩
      simp only [Function.iterate_zero_apply]
      constructor
      · intro _
        omega
      · intro _
        exact hon
  | succ k ih =>
      intro hk
      have hk2 : k ≤ N := by omega
      obtain ⟨ihp, iho⟩ := ih hk2
      have honk : (applyHit^[k] b).onoff = ONOFF.ON := iho.mpr (by omega)
      rw [Function.iterate_succ_apply']
      constructor
      · rw [applyHit_hitPoints, ihp]
        omega
      · rw [applyHit_onoff, ihp]
        by_cases hlt : k + 1 < N
        · rw [if_neg (by omega : ¬ (N : ℤ) - (k : ℤ) - 1 ≤ 0)]
          rw [honk]
          simp [hlt]
        · rw [if_pos (by omega : (N : ℤ) - (k : ℤ) - 1 ≤ 0)]
          simp [hlt]

/-- Claim C4: a destructible brick with N initial hit points reaches 0 hit
points after exactly N applied hits, turns OFF exactly on the N-th hit and
never earlier, and each hit decrements hitPoints by one and recolors per
the fixed table (2 remaining gives orange, 1 remaining gives red, any other
count leaves the color as is). -/
theorem brick_hit_countdown (b : Brick) (N : ℕ)
    (htype : b.brick_type = BRICKTYPE.DESTRUCTABLE) (hN : b.hitPoints = (N : ℤ))
    (h1 : 1 ≤ N) (hon : b.onoff = ONOFF.ON) :
    (∀ k : ℕ, k ≤ N →
      (applyHit^[k] b).hitPoints = (N : ℤ) - (k : ℤ) ∧
      ((applyHit^[k] b).onoff = ONOFF.ON ↔ k < N)) ∧
    (∀ d : Brick, d.brick_type = BRICKTYPE.DESTRUCTABLE →
      (applyHit d).hitPoints = d.hitPoints - 1 ∧
      ((applyHit d).red, (applyHit d).green, (applyHit d).blue) =
        (if d.hitPoints - 1 = 2 then ((1 : ℚ), (0.5 : ℚ), (0 : ℚ))
          else if d.hitPoints - 1 = 1 then (1, 0, 0)
          else (d.red, d.green, d.blue))) :=
  ⟨applyHit_iter_destructible b N hN hon h1,
    fun d hd => ⟨applyHit_hitPoints d, applyHit_colors d hd⟩⟩

/-- Witness for C4: the grid's 3-hit-point destructible brick is OFF with 0
hit points exactly after the third hit. -/
theorem brick_hit_countdown_witness :
    (applyHit^[3] bDest).hitPoints = (3 : ℤ) - (3 : ℤ) ∧
    ((applyHit^[3] bDest).onoff = ONOFF.ON ↔ 3 < 3) :=
  (brick_hit_countdown bDest 3 rfl (by decide) (by decide) rfl).1 3 (by decide)

theorem findMergeTarget_some (c : Circle) (i : ℕ) :
    ∀ (l : List Circle) (s j : ℕ) (B : Circle), s ≤ j →
      l.get? (j - s) = some B →
      j ≠ i → B.active = true → circlesOverlap c B →
      (∀ t : ℕ, s ≤ t → t < j → t ≠ i → ∀ B2 : Circle, l.get? (t - s) = some B2 →
        ¬ (B2.active = true ∧ circlesOverlap c B2)) →
      findMergeTarget c i s l = some j := by
  intro l
  induction l with
  | nil =>
      intro s j B hsj hget
      simp at hget
  | cons a rest ih =>
      intro s j B hsj hget hji hact hov hfirst
      by_cases hsj2 : s = j
      · subst hsj2
        rw [Nat.sub_self] at hget
        have ha : a = B := by
          simpa using hget
        subst ha
        unfold findMergeTarget
        rw [if_pos ⟨hji, hact, hov⟩]
      · have hlt : s < j := Nat.lt_of_le_of_ne hsj hsj2
        have hcond : ¬ (s ≠ i ∧ a.active = true ∧ circlesOverlap c a) := by
          rintro ⟨hsi, hact2, hov2⟩
          exact hfirst s le_rfl hlt hsi a (by rw [Nat.sub_self]; rfl) ⟨hact2, hov2⟩
        unfold findMergeTarget
        rw [if_neg hcond]
        apply ih (s + 1) j B (by omega)
        · have h1 : j - s = (j - (s + 1)) + 1 := by omega
          rw [h1] at hget
          rw [List.get?_cons_succ] at hget
          exact hget
        · exact hji
        · exact hact
        · exact hov
        · intro t hst htj hti B2 hget2
          have h2 : t - s = (t - (s + 1)) + 1 := by omega
          apply hfirst t (by omega) htj hti B2
          rw [h2, List.get?_cons_succ]
          exact hget2

/-- Claim C1 as amended, at the level of the merge pass the claim's code
source implements: when the projectile at index i is active and the entry
at index j is the first other active projectile overlapping it in scan
order, the pass deactivates exactly those two entries in place and appends
exactly one new projectile, active, with position the midpoint of their
current centers, radius the sum of the radii, velocity the componentwise
average, and the fixed merged color (1, 1, 0). -/
theorem circle_merge_spec (w : List Circle) (i j : ℕ) (A B : Circle)
    (hA : w.get? i = some A) (hAct : A.active = true)
    (hB : w.get? j = some B) (hji : j ≠ i) (hBct : B.active = true)
    (hov : circlesOverlap A B)
    (hfirst : ∀ t : ℕ, t < j → t ≠ i → ∀ B2 : Circle, w.get? t = some B2 →
      ¬ (B2.active = true ∧ circlesOverlap A B2)) :
    checkCircleMerge i w =
      ((w.set i { A with active := false }).set j { B with active := false }) ++
        [{ red := 1, green := 1, blue := 0, radius := A.radius + B.radius,
           x := (A.x + B.x) / 2, y := (A.y + B.y) / 2,
           speedX := (A.speedX + B.speedX) / 2, speedY := (A.speedY + B.speedY) / 2,
           active := true }] := by
  have hf : findMergeTarget A i 0 w = some j := by
    apply findMergeTarget_some A i w 0 j B (Nat.zero_le j)
    · simpa using hB
    · exact hji
    · exact hBct
    · exact hov
    · intro t h0 htj hti B2 hget2
      exact hfirst t htj hti B2 (by simpa using hget2)
  unfold checkCircleMerge
  rw [hA]
  dsimp only
  rw [hf]
  dsimp only
  rw [hB]
  dsimp only [mergedCircle]

/-- Witness for the amended C1 in a two-projectile world. -/
theorem circle_merge_spec_witness :
    checkCircleMerge 0 [cexA, cexB] =
      (([cexA, cexB].set 0 { cexA with active := false }).set 1
          { cexB with active := false }) ++
        [{ red := 1, green := 1, blue := 0, radius := cexA.radius + cexB.radius,
           x := (cexA.x + cexB.x) / 2, y := (cexA.y + cexB.y) / 2,
           speedX := (cexA.speedX + cexB.speedX) / 2,
           speedY := (cexA.speedY + cexB.speedY) / 2, active := true }] := by
  apply circle_merge_spec [cexA, cexB] 0 1 cexA cexB rfl rfl rfl (by decide) rfl (by decide)
  intro t ht hti B2 hget2
  exact absurd (by omega : t = 0) hti

/-- Counterexample to claim C1 as stated: cexA and cexB are distinct active
projectiles with overlapping discs, yet after one simulation step cexB is
still present and active, because the scan merged cexA with the
earlier-indexed cexC instead; the one new projectile is merged(A, C), not a
projectile at the midpoint of A and B. -/
theorem merge_pair_counterexample :
    cexA.active = true ∧ cexB.active = true ∧ cexA ≠ cexB ∧ circlesOverlap cexA cexB ∧
    (simStep paddle0 ([cexA, cexC, cexB], [])).1 = [cexB, mergedCircle cexA cexC] := by
  decide

/-- Claim C3's failing input evaluated: the first projectile is deactivated
by the bottom-wall check of this very tick, yet the merge stage still runs
for it, deactivates the second projectile and spawns the merged projectile,
so the ball is both lost and merged in one tick. -/
theorem lost_ball_still_merges :
    (checkWallCollision (moveOneStep cLost)).active = false ∧
    (simStep paddle0 ([cLost, cOther], [])).1 =
      [{ red := 1, green := 1, blue := 0, radius := 0.06, x := 0.5, y := -1.06,
         speedX := 0, speedY := -0.025, active := true }] := by
  decide

end Breakout
